import Mathlib

/-!
Verification of the tilemap-atlas corner-mask conversion and composition
engine, shallowly embedded from the Rust sources:

- `src/flat/mod.rs`              (`TilesetEdge2`)
- `src/grids/rpg_maker_xp/mod.rs` (`GridCornerRMVXFile`, `view_rpg4x6_cell`)
- `src/grids/corner_set/mod.rs`   (`GridCornerAtlas` metadata)
- `src/grid_corner_set/der.rs`    (`GridCornerAtlas::from_wang`)
- `src/file_system/mod.rs`        (`FileSystemTiles` registry)

An RGBA image is modelled as a width, a height and a total pixel function
`Nat → Nat → Nat` (the pixel payload is abstracted to a natural number; the
engine only moves pixels around, never inspects them).  Fallible image
operations return `Except ImgError` mirroring `ImageResult`.
-/

namespace Tilemap

/-- Decoded RGBA buffer: width, height and a pixel lookup.  Reads outside
the stated bounds are never relied upon by any theorem below. -/
structure Image where
  width : Nat
  height : Nat
  pixel : Nat → Nat → Nat

/-- `RgbaImage::new`: an all-zero (transparent) image. -/
def Image.new (w h : Nat) : Image :=
  { width := w, height := h, pixel := fun _ _ => 0 }

/-- `GenericImageView::view(x, y, w, h)`: a rectangular sub-image reading
through to the underlying buffer at offset `(x, y)`. -/
def Image.view (raw : Image) (x y w h : Nat) : Image :=
  { width := w, height := h, pixel := fun a b => raw.pixel (x + a) (y + b) }

/-- Error kinds surfaced by the engine (`ImageError` variants used by the
sources, plus explicit markers for `debug_assert!`/`unreachable!` panics). -/
inductive ImgError where
  | dimensionError
  | dimensionMismatch
  | invalidInput
  | assertFailed
  | unreachableBranch
deriving DecidableEq

/-- `GenericImage::copy_from(other, x, y)`: bounds-checked blit.  Fails with
`DimensionMismatch` when `other` does not fit into `self` at `(x, y)`;
otherwise overwrites the target rectangle with `other`'s pixels. -/
def copyFrom (dst src : Image) (x y : Nat) : Except ImgError Image :=
  if dst.width < src.width + x ∨ dst.height < src.height + y then
    .error .dimensionMismatch
  else
    .ok { width := dst.width, height := dst.height,
          pixel := fun X Y =>
            if x ≤ X ∧ X < x + src.width ∧ y ≤ Y ∧ Y < y + src.height then
              src.pixel (X - x) (Y - y)
            else dst.pixel X Y }

/-- The unchecked pixel-copy loop (`put_pixel`/`get_pixel` in
`TilesetEdge2::make_cell`): same rectangle overwrite as `copyFrom`, with no
bound check (the call sites have already established the bounds). -/
def blit (dst src : Image) (x y : Nat) : Image :=
  { width := dst.width, height := dst.height,
    pixel := fun X Y =>
      if x ≤ X ∧ X < x + src.width ∧ y ≤ Y ∧ Y < y + src.height then
        src.pixel (X - x) (Y - y)
      else dst.pixel X Y }

/-- Placement of quadrant `i` (0 = LU, 1 = RU, 2 = LD, 3 = RD) inside a
2×2 composite cell: `x = (i % 2) * cellW`, `y = (i / 2) * cellH`, exactly
the arithmetic inlined in `make_cell` and `view_rpg4x6_cell`. -/
def quadrantOrigin (i cw ch : Nat) : Nat × Nat :=
  ((i % 2) * cw, (i / 2) * ch)

/-! ## `src/flat/mod.rs` — `TilesetEdge2` -/

/-- `TilesetEdge2`: source image plus the 16-entry corner-pattern cache. -/
structure TilesetEdge2 where
  image : Image
  cache : List Image

/-- The corner-index bit packing inlined in `TilesetEdge2::get_corner`:
`(rd as u8) << 3 | (ld as u8) << 2 | (ru as u8) << 1 | (lu as u8)`. -/
def corner_index (lu ru ld rd : Bool) : Nat :=
  8 * rd.toNat + 4 * ld.toNat + 2 * ru.toNat + lu.toNat

/-- `TilesetEdge2::make_cell`: composes one 2×2-quadrant output cell of
size `(2 cellW, 2 cellH)` by copying the four source cells `c0 c1 c2 c3`
(ordered LU, RU, LD, RD) into the quadrants. -/
def makeCell (img : Image) (c0 c1 c2 c3 : Nat × Nat) : Image :=
  let w := img.width / 4
  let h := img.height / 6
  let out := Image.new (w * 2) (h * 2)
  let out := blit out (img.view (c0.1 * w) (c0.2 * h) w h)
    (quadrantOrigin 0 w h).1 (quadrantOrigin 0 w h).2
  let out := blit out (img.view (c1.1 * w) (c1.2 * h) w h)
    (quadrantOrigin 1 w h).1 (quadrantOrigin 1 w h).2
  let out := blit out (img.view (c2.1 * w) (c2.2 * h) w h)
    (quadrantOrigin 2 w h).1 (quadrantOrigin 2 w h).2
  let out := blit out (img.view (c3.1 * w) (c3.2 * h) w h)
    (quadrantOrigin 3 w h).1 (quadrantOrigin 3 w h).2
  out

/-- `TilesetEdge2::from_rpg_maker` composed with `make_cache`: builds the
16 cached cells from the literal coordinate table in `make_cache`.  (The
divisibility assertion of `from_rpg_maker` re-checks the condition already
modelled in `TilesetEdge2.load` below.) -/
def from_rpg_maker (img : Image) : TilesetEdge2 :=
  { image := img
    cache := [
      makeCell img (0, 0) (1, 0) (0, 1) (1, 1),
      makeCell img (3, 5) (1, 0) (0, 1) (1, 1),
      makeCell img (0, 0) (0, 5) (0, 1) (1, 1),
      makeCell img (1, 5) (2, 5) (0, 1) (1, 1),
      makeCell img (0, 0) (1, 0) (3, 2) (1, 1),
      makeCell img (3, 3) (1, 0) (3, 4) (1, 1),
      makeCell img (0, 0) (0, 5) (3, 2) (1, 1),
      makeCell img (3, 1) (2, 5) (3, 4) (1, 1),
      makeCell img (0, 0) (1, 0) (0, 1) (0, 2),
      makeCell img (3, 5) (1, 0) (0, 1) (0, 2),
      makeCell img (0, 0) (0, 3) (0, 1) (0, 4),
      makeCell img (1, 5) (2, 1) (0, 1) (0, 4),
      makeCell img (0, 0) (1, 0) (1, 2) (2, 2),
      makeCell img (3, 3) (1, 0) (3, 0) (2, 2),
      makeCell img (0, 0) (0, 3) (1, 2) (2, 0),
      makeCell img (1, 3) (2, 3) (1, 4) (2, 4)] }

/-- `TilesetEdge2::load` (after the external codec has decoded the file):
rejects images whose width is not a multiple of 4 or height not a multiple
of 6 with `DimensionError`, otherwise builds the tile set. -/
def TilesetEdge2.load (img : Image) : Except ImgError TilesetEdge2 :=
  if img.width % 4 ≠ 0 ∨ img.height % 6 ≠ 0 then .error .dimensionError
  else .ok (from_rpg_maker img)

/-- `TilesetEdge2::get_corner`: cache lookup at the packed corner index.
The source reads with `get_unchecked`; the out-of-range case (which would
be undefined behaviour) is modelled as `none`. -/
def TilesetEdge2.get_corner (t : TilesetEdge2) (lu ru ld rd : Bool) : Option Image :=
  t.cache.get? (corner_index lu ru ld rd)

/-- `TilesetEdge2::get_side`: derives the four corner booleans by the AND
rule, then calls `get_corner` with the arguments in the source's order
`(lu, ld, ru, rd)`. -/
def TilesetEdge2.get_side (t : TilesetEdge2) (r u l d : Bool) : Option Image :=
  let lu := l && u
  let ru := r && u
  let ld := l && d
  let rd := r && d
  t.get_corner lu ld ru rd

/-! ## `src/grids/rpg_maker_xp/mod.rs` — VendorA (RPG-Maker 4×6) layout -/

/-- The VendorA cell-view coordinate table of `view_rpg4x6_cell`: for each
corner mask the four source-cell coordinates `[LU, RU, LD, RD]`; `none`
models the `unreachable!()` default branch. -/
def rpg4x6Table (mask : Nat) :
    Option ((Nat × Nat) × (Nat × Nat) × (Nat × Nat) × (Nat × Nat)) :=
  match mask with
  | 0  => some ((0, 0), (1, 0), (0, 1), (1, 1))
  | 1  => some ((3, 5), (1, 0), (0, 1), (1, 1))
  | 2  => some ((0, 0), (0, 5), (0, 1), (1, 1))
  | 3  => some ((1, 5), (2, 5), (0, 1), (1, 1))
  | 4  => some ((0, 0), (1, 0), (3, 2), (1, 1))
  | 5  => some ((3, 3), (1, 0), (3, 4), (1, 1))
  | 6  => some ((0, 0), (0, 5), (3, 2), (1, 1))
  | 7  => some ((3, 1), (2, 5), (3, 4), (1, 1))
  | 8  => some ((0, 0), (1, 0), (0, 1), (0, 2))
  | 9  => some ((3, 5), (1, 0), (0, 1), (0, 2))
  | 10 => some ((0, 0), (0, 3), (0, 1), (0, 4))
  | 11 => some ((1, 5), (2, 1), (0, 1), (0, 4))
  | 12 => some ((0, 0), (1, 0), (1, 2), (2, 2))
  | 13 => some ((3, 3), (1, 0), (3, 0), (2, 2))
  | 14 => some ((0, 0), (0, 3), (1, 2), (2, 0))
  | 15 => some ((1, 3), (2, 3), (1, 4), (2, 4))
  | _  => none

/-- `view_rpg4x6_cell(raw, mask)`: extracts the composite cell for `mask`
from a VendorA source by copying the four table-resolved source cells into
the quadrants of a `(2 width, 2 height)` output (the four loop iterations
are unrolled; quadrant `i` lands at `quadrantOrigin i`). -/
def view_rpg4x6_cell (raw : Image) (mask : Nat) : Except ImgError Image :=
  let width := raw.width / 4
  let height := raw.height / 6
  match rpg4x6Table mask with
  | none => .error .unreachableBranch
  | some (c0, c1, c2, c3) => do
    let out := Image.new (width * 2) (height * 2)
    let out ← copyFrom out (raw.view (c0.1 * width) (c0.2 * height) width height)
      (quadrantOrigin 0 width height).1 (quadrantOrigin 0 width height).2
    let out ← copyFrom out (raw.view (c1.1 * width) (c1.2 * height) width height)
      (quadrantOrigin 1 width height).1 (quadrantOrigin 1 width height).2
    let out ← copyFrom out (raw.view (c2.1 * width) (c2.2 * height) width height)
      (quadrantOrigin 2 width height).1 (quadrantOrigin 2 width height).2
    let out ← copyFrom out (raw.view (c3.1 * width) (c3.2 * height) width height)
      (quadrantOrigin 3 width height).1 (quadrantOrigin 3 width height).2
    pure out

/-- `GridCornerRMVXFile`: descriptor of a VendorA source (name plus the
declared cell size). -/
structure GridCornerRMVXFile where
  key : String
  cell_w : Nat
  cell_h : Nat

/-- `GridCornerAtlas` (from `grids/corner_set/mod.rs`): the metadata record
returned alongside the canonical strip. -/
structure GridCornerAtlasMeta where
  key : String
  cell_w : Nat
  cell_h : Nat
  count : List Nat

/-- `GridCornerRMVXFile::as_standard`: allocates a `(cell_w * 16, cell_h)`
strip and, for each mask 0..16, copies `view_rpg4x6_cell image mask` into
the strip at `(mask * cell_w, 0)` via the bounds-checked `copy_from`. -/
def GridCornerRMVXFile.as_standard (f : GridCornerRMVXFile) (key : String)
    (img : Image) : Except ImgError (GridCornerAtlasMeta × Image) := do
  let out ← (List.range 16).foldlM (fun acc i => do
      let view ← view_rpg4x6_cell img i
      copyFrom acc view (i * f.cell_w) 0)
    (Image.new (f.cell_w * 16) f.cell_h)
  pure (⟨key, f.cell_w, f.cell_h, List.replicate 16 1⟩, out)

/-- `GridCornerRMVXFile::load_corner` (after the external codec has decoded
the image), with debug-build semantics for its entry assertion: the source
runs `debug_assert!(mask >= 16, "corner mask {} is not in range ...")`, so
the call aborts (modelled as `assertFailed`) whenever `mask >= 16` is
false, and otherwise proceeds to `view_rpg4x6_cell`. -/
def GridCornerRMVXFile.load_corner (_f : GridCornerRMVXFile) (img : Image)
    (mask : Nat) : Except ImgError Image :=
  if 16 ≤ mask then view_rpg4x6_cell img mask
  else .error .assertFailed

/-! ## `src/grid_corner_set/der.rs` — `GridCornerAtlas::from_wang` -/

/-- The `make_wing_cell` coordinate table: source-cell coordinate (in units
of `s`) for each mask; `none` models the `unreachable!()` branch. -/
def wingCellCoord (id : Nat) : Option (Nat × Nat) :=
  match id with
  | 0  => some (0, 3)
  | 1  => some (3, 3)
  | 2  => some (0, 2)
  | 3  => some (1, 2)
  | 4  => some (0, 0)
  | 5  => some (3, 2)
  | 6  => some (2, 3)
  | 7  => some (3, 1)
  | 8  => some (1, 3)
  | 9  => some (0, 1)
  | 10 => some (1, 0)
  | 11 => some (2, 2)
  | 12 => some (3, 0)
  | 13 => some (2, 0)
  | 14 => some (1, 1)
  | 15 => some (2, 1)
  | _  => none

/-- `GridCornerAtlas` as constructed by `from_wang` (in
`grid_corner_set/der.rs`): canonical 16-cell strip plus per-mask counts. -/
structure GridCornerAtlasW where
  image : Image
  count : List Nat

/-- `GridCornerAtlas::from_wang`: rejects a wang sheet whose width is not a
multiple of 4 or which is not square with `DimensionError` (via
`utils::dimension_error`), otherwise copies the 16 single cells resolved by
`make_wing_cell` into a `(cell_size * 16, cell_size)` strip. -/
def GridCornerAtlasW.from_wang (wang : Image) : Except ImgError GridCornerAtlasW := do
  let cell_size := wang.width / 4
  if wang.width % 4 ≠ 0 ∨ wang.width ≠ wang.height then
    .error .dimensionError
  else do
    let strip ← (List.range 16).foldlM (fun acc i =>
        match wingCellCoord i with
        | none => .error .unreachableBranch
        | some c =>
          copyFrom acc (wang.view (c.1 * cell_size) (c.2 * cell_size) cell_size cell_size)
            (i * cell_size) 0)
      (Image.new (cell_size * 16) cell_size)
    pure ⟨strip, List.replicate 16 1⟩

/-! ## `src/file_system/mod.rs` — the named-atlas registry -/

/-- Modelled from the spec: the `GridCornerWang` atlas-data struct is not
under `src/` (only its callers are).  Per §3/§4.3 it owns a name (unique
key), its cell size and the canonical Standard strip, and exposes
`get_by_mask`. -/
structure GridCornerWang where
  key : String
  cell_w : Nat
  cell_h : Nat
  standard : Image

/-- Modelled from the spec: `GridCornerWang::get_by_mask` (§4.3
`getByMask`) is an O(1) slice of the Standard strip at `x = mask * cellW`. -/
def GridCornerWang.get_by_mask (v : GridCornerWang) (mask : Nat) : Image :=
  v.standard.view (mask * v.cell_w) 0 v.cell_w v.cell_h

/-- Modelled from the spec: `utils::grid_corner_mask` is not under `src/`;
§3 fixes the packing as `mask = (RD<<3)|(LD<<2)|(RU<<1)|LU`. -/
def grid_corner_mask (lu ru ld rd : Bool) : Nat :=
  8 * rd.toNat + 4 * ld.toNat + 2 * ru.toNat + lu.toNat

/-- `TileAtlasData`: the tagged union of atlas kinds.  The non-corner
variants box structs that are not under `src/`; per §3 each owns a name
(unique key), which is all the registry claims use of them. -/
inductive TileAtlasData where
  | simpleSet (key : String)
  | animation (key : String)
  | gridCornerWang (v : GridCornerWang)
  | gridEdge (key : String)
  | gridEdgeWang (key : String)

/-- `TileAtlasData::get_name`: returns the variant's key; the
`GridCornerWang` arm is `todo!()` in the source, i.e. a panic, modelled as
`none`. -/
def TileAtlasData.get_name : TileAtlasData → Option String
  | .simpleSet k => some k
  | .animation k => some k
  | .gridCornerWang _ => none
  | .gridEdge k => some k
  | .gridEdgeWang k => some k

/-- `FileSystemTiles`: global target size plus the name → atlas map (the
`DashMap` is modelled as an association list; the workspace path and the
on-disk descriptor live behind the external I/O boundary). -/
structure FileSystemTiles where
  target_w : Nat
  target_h : Nat
  atlas : List (String × TileAtlasData)

/-- Modelled from the spec: `write_json` serializes the descriptor to the
workspace (§4.4 persistence contract); file I/O is an external collaborator
and is modelled as succeeding.  It never touches the in-memory state. -/
def FileSystemTiles.write_json (_s : FileSystemTiles) : Option ImgError :=
  none

/-- `FileSystemTiles::get_target_size`. -/
def FileSystemTiles.get_target_size (s : FileSystemTiles) : Nat × Nat :=
  (s.target_w, s.target_h)

/-- `FileSystemTiles::set_target_size`: checks the width, assigning it when
nonzero and failing with `InvalidInput` when zero; then likewise for the
height; then persists.  The returned pair is (state of `self` after the
call, error if any) — on the height failure the width assignment has
already happened. -/
def FileSystemTiles.set_target_size (s : FileSystemTiles) (width height : Nat) :
    FileSystemTiles × Option ImgError :=
  if width = 0 then (s, some .invalidInput)
  else
    let s := { s with target_w := width }
    if height = 0 then (s, some .invalidInput)
    else
      let s := { s with target_h := height }
      (s, s.write_json)

/-- `FileSystemTiles::get_atlas`: map lookup, cloning the stored value; the
`_mask` argument is ignored by the source. -/
def FileSystemTiles.get_atlas (s : FileSystemTiles) (name : String)
    (_mask : Nat) : Option TileAtlasData :=
  s.atlas.lookup name

/-- `FileSystemTiles::get_corner`: packs the corner mask, looks up the
name, and answers only for the `GridCornerWang` variant by delegating to
`get_by_mask`. -/
def FileSystemTiles.get_corner (s : FileSystemTiles) (name : String)
    (lu ru ld rd : Bool) (_index : Nat) : Option Image :=
  let mask := grid_corner_mask lu ru ld rd
  match s.atlas.lookup name with
  | none => none
  | some (.simpleSet _) => none
  | some (.animation _) => none
  | some (.gridCornerWang v) => some (v.get_by_mask mask)
  | some (.gridEdge _) => none
  | some (.gridEdgeWang _) => none

/-- `FileSystemTiles::insert_atlas`: unconditional upsert (the `DashMap`
replaces any previous value under the same key), then persists. -/
def FileSystemTiles.insert_atlas (s : FileSystemTiles) (file : String)
    (data : TileAtlasData) : FileSystemTiles × Option ImgError :=
  let s := { s with atlas := (file, data) :: s.atlas.filter (fun p => p.1 ≠ file) }
  (s, s.write_json)

/-! ## Concrete fixtures -/

/-- A 4×6 VendorA source of cell size 1×1 whose pixels are pairwise
distinct. -/
def testImg4x6 : Image :=
  { width := 4, height := 6, pixel := fun x y => 4 * y + x }

/-- A 64×96 VendorA source (cell size 16×16) with pairwise distinct
pixels. -/
def testImg64x96 : Image :=
  { width := 64, height := 96, pixel := fun x y => 100 * x + y }

/-- A 5×6 image: width 5 is not divisible by 4. -/
def testImg5x6 : Image :=
  { width := 5, height := 6, pixel := fun _ _ => 0 }

/-- An empty registry with the default 32×32 target size. -/
def fsEmpty : FileSystemTiles :=
  { target_w := 32, target_h := 32, atlas := [] }

/-- A corner-wang atlas named `grass` over a 256×16 standard strip. -/
def wangGrass : GridCornerWang :=
  { key := "grass", cell_w := 16, cell_h := 16, standard := Image.new 256 16 }

/-- A registry holding exactly the `grass` corner-wang atlas. -/
def fsGrass : FileSystemTiles :=
  { target_w := 32, target_h := 32,
    atlas := [("grass", TileAtlasData.gridCornerWang wangGrass)] }

/-! ## Basic facts about the pixel operations -/

@[simp] theorem new_width (w h : Nat) : (Image.new w h).width = w := rfl

@[simp] theorem new_height (w h : Nat) : (Image.new w h).height = h := rfl

@[simp] theorem new_pixel (w h X Y : Nat) : (Image.new w h).pixel X Y = 0 := rfl

@[simp] theorem view_width (raw : Image) (x y w h : Nat) :
    (raw.view x y w h).width = w := rfl

@[simp] theorem view_height (raw : Image) (x y w h : Nat) :
    (raw.view x y w h).height = h := rfl

@[simp] theorem view_pixel (raw : Image) (x y w h a b : Nat) :
    (raw.view x y w h).pixel a b = raw.pixel (x + a) (y + b) := rfl

theorem blit_width (dst src : Image) (x y : Nat) :
    (blit dst src x y).width = dst.width := rfl

theorem blit_height (dst src : Image) (x y : Nat) :
    (blit dst src x y).height = dst.height := rfl

theorem blit_pixel_in (dst src : Image) (x y X Y : Nat)
    (h : x ≤ X ∧ X < x + src.width ∧ y ≤ Y ∧ Y < y + src.height) :
    (blit dst src x y).pixel X Y = src.pixel (X - x) (Y - y) := by
  simp only [blit, if_pos h]

theorem blit_pixel_out (dst src : Image) (x y X Y : Nat)
    (h : ¬(x ≤ X ∧ X < x + src.width ∧ y ≤ Y ∧ Y < y + src.height)) :
    (blit dst src x y).pixel X Y = dst.pixel X Y := by
  simp only [blit, if_neg h]

theorem copyFrom_ok (dst src : Image) (x y : Nat)
    (h : ¬(dst.width < src.width + x ∨ dst.height < src.height + y)) :
    copyFrom dst src x y = .ok (blit dst src x y) := by
  simp only [copyFrom, blit, if_neg h]

/-! ## Claim theorems -/

/-- C3: the packing `mask = (RD<<3)|(LD<<2)|(RU<<1)|LU` used by
`TilesetEdge2::get_corner` is a bijection between the 16 boolean quadruples
`(lu, ru, ld, rd)` and the masks `0..16`: every produced mask is below 16,
decoding it through the fixed bit positions (bit0 = LU, bit1 = RU,
bit2 = LD, bit3 = RD) reproduces the quadruple, and conversely every mask
below 16 is reproduced from its decoded quadruple. -/
theorem corner_mask_bijection :
    (∀ lu ru ld rd : Bool,
      corner_index lu ru ld rd < 16 ∧
      ((corner_index lu ru ld rd).testBit 0,
       (corner_index lu ru ld rd).testBit 1,
       (corner_index lu ru ld rd).testBit 2,
       (corner_index lu ru ld rd).testBit 3) = (lu, ru, ld, rd)) ∧
    (∀ m : Fin 16,
      corner_index (m.val.testBit 0) (m.val.testBit 1)
        (m.val.testBit 2) (m.val.testBit 3) = m.val) := by
  decide

/-- Length of the corner cache built by `from_rpg_maker`. -/
theorem from_rpg_maker_cache_length (img : Image) :
    (from_rpg_maker img).cache.length = 16 := rfl

/-- C8: the unchecked cache access in `TilesetEdge2::get_corner` never
reads out of bounds: for every four corner booleans the computed index is
strictly below the cache length 16, so the lookup always yields a cell. -/
theorem corner_cache_index_in_bounds (img : Image) (lu ru ld rd : Bool) :
    corner_index lu ru ld rd < (from_rpg_maker img).cache.length ∧
    ((from_rpg_maker img).get_corner lu ru ld rd).isSome = true := by
  rw [from_rpg_maker_cache_length]
  cases lu <;> cases ru <;> cases ld <;> cases rd <;>
    exact ⟨by decide, rfl⟩

/-- Error kind of a fallible image computation, for concrete evaluation. -/
def exceptErrKind (e : Except ImgError Image) : Option ImgError :=
  match e with
  | .error k => some k
  | .ok _ => none

/-- C10: the entry assertion of `GridCornerRMVXFile::load_corner` is
`debug_assert!(mask >= 16)`, which is the negation of the range its own
message documents: on every valid mask in `0..16` the assertion condition
is false, so a debug build aborts, while the out-of-range mask 16 passes
the assertion and only dies in `view_rpg4x6_cell`'s `unreachable!()`. -/
theorem load_corner_assert_inverted :
    (∀ m : Fin 16,
      exceptErrKind (GridCornerRMVXFile.load_corner ⟨"rmvx", 16, 16⟩ testImg64x96 m.val) =
        some ImgError.assertFailed) ∧
    exceptErrKind (GridCornerRMVXFile.load_corner ⟨"rmvx", 16, 16⟩ testImg64x96 16) =
      some ImgError.unreachableBranch := by
  constructor
  · decide
  · rfl

/-- C1 counterexample: on the 4×6 source with pairwise-distinct pixels,
`get_side(true, true, false, false)` (right and up neighbours present)
does not return the cell that `get_corner` returns for the AND-derived
corner booleans passed in the canonical order `(LU, RU, LD, RD)`: the two
cells differ at pixel (1, 0). -/
theorem get_side_canonical_order_cex :
    ((from_rpg_maker testImg4x6).get_side true true false false).map
        (fun c => c.pixel 1 0) ≠
      ((from_rpg_maker testImg4x6).get_corner (false && true) (true && true)
          (false && false) (true && false)).map (fun c => c.pixel 1 0) := by
  decide

/-- C1 (amended): `get_side` derives the corner booleans by the AND rule
but hands them to `get_corner` in the order `(LU, LD, RU, RD)`, so
`get_side(r, u, l, d) = get_corner(l&&u, l&&d, r&&u, r&&d)` and the cell
returned is the cache entry at index
`(R&&D)<<3 | (R&&U)<<2 | (L&&D)<<1 | (L&&U)` — the RU and LD bits are
swapped relative to the canonical `(RD<<3)|(LD<<2)|(RU<<1)|LU` packing. -/
theorem get_side_swapped_order (img : Image) (r u l d : Bool) :
    (from_rpg_maker img).get_side r u l d =
      (from_rpg_maker img).get_corner (l && u) (l && d) (r && u) (r && d) ∧
    (from_rpg_maker img).get_side r u l d =
      (from_rpg_maker img).cache.get?
        (8 * (r && d).toNat + 4 * (r && u).toNat +
          2 * (l && d).toNat + (l && u).toNat) := by
  constructor
  · rfl
  · cases r <;> cases u <;> cases l <;> cases d <;> rfl

/-- C7: any source image whose width is not divisible by 4 is rejected by
both conversion entry points — `TilesetEdge2::load` (VendorA) and
`GridCornerAtlas::from_wang` (Standard wang sheet) — with a
`DimensionError` and no output image: the error is returned before any
pixel copy. -/
theorem width_not_div4_rejected (img : Image) (hw : img.width % 4 ≠ 0) :
    TilesetEdge2.load img = .error .dimensionError ∧
    GridCornerAtlasW.from_wang img = .error .dimensionError := by
  constructor
  · simp [TilesetEdge2.load, hw]
  · simp [GridCornerAtlasW.from_wang, hw]

/-- C7 witness: the 5×6 image is rejected by both entry points. -/
theorem width_not_div4_rejected_witness :
    testImg5x6.width % 4 ≠ 0 ∧
    (TilesetEdge2.load testImg5x6 = .error .dimensionError ∧
     GridCornerAtlasW.from_wang testImg5x6 = .error .dimensionError) :=
  ⟨by decide, width_not_div4_rejected testImg5x6 (by decide)⟩

/-- C5 counterexample: `set_target_size(16, 0)` on the default registry
fails with `InvalidInput`, yet the in-memory target size has changed (the
width was assigned before the height check), contradicting the claim that
a failing call leaves the target size unchanged. -/
theorem set_target_size_partial_update_cex :
    (fsEmpty.set_target_size 16 0).2 = some ImgError.invalidInput ∧
    (fsEmpty.set_target_size 16 0).1.get_target_size ≠
      fsEmpty.get_target_size := by
  decide

/-- C5 (amended): `set_target_size` fails with `InvalidInput` when either
argument is zero and persists only when both are nonzero, but the update
is not atomic: a zero width leaves the state unchanged, while a nonzero
width with a zero height assigns the width before failing, so the target
size can be partially updated by a failing call.  `set_target_size 16 16`
sets the target size to `(16, 16)`. -/
theorem set_target_size_amended (s : FileSystemTiles) (w h : Nat) :
    ((w = 0 ∨ h = 0) → (s.set_target_size w h).2 = some ImgError.invalidInput) ∧
    (w = 0 → s.set_target_size w h = (s, some ImgError.invalidInput)) ∧
    (w ≠ 0 → h = 0 →
      s.set_target_size w h =
        ({ s with target_w := w }, some ImgError.invalidInput)) ∧
    (w ≠ 0 → h ≠ 0 →
      s.set_target_size w h =
        ({ s with target_w := w, target_h := h }, none)) := by
  by_cases hw : w = 0 <;> by_cases hh : h = 0 <;>
    simp [FileSystemTiles.set_target_size, FileSystemTiles.write_json, hw, hh]

/-- C5 witness: on the default registry, `set_target_size 16 0` fails with
`InvalidInput` and `set_target_size 16 16` sets the size to `(16, 16)`. -/
theorem set_target_size_amended_witness :
    (fsEmpty.set_target_size 16 0).2 = some ImgError.invalidInput ∧
    fsEmpty.set_target_size 16 16 =
      ({ fsEmpty with target_w := 16, target_h := 16 }, none) :=
  ⟨(set_target_size_amended fsEmpty 16 0).1 (Or.inr rfl),
   (set_target_size_amended fsEmpty 16 16).2.2.2 (by decide) (by decide)⟩

/-- C6: inserting an atlas under the name `grass` and looking it up
returns a stored value — but reading its name crashes for the
`GridCornerWang` variant, whose `get_name` arm is `todo!()` (modelled as
`none`), while the simple variants do return `grass`; looking up a missing
name returns nothing. -/
theorem registry_get_name_todo_bug :
    ((fsEmpty.insert_atlas "grass"
        (.gridCornerWang wangGrass)).1.get_atlas "grass" 0).isSome = true ∧
    (((fsEmpty.insert_atlas "grass"
        (.gridCornerWang wangGrass)).1.get_atlas "grass" 0).bind
      TileAtlasData.get_name) = none ∧
    (((fsEmpty.insert_atlas "grass"
        (.simpleSet "grass")).1.get_atlas "grass" 0).bind
      TileAtlasData.get_name) = some "grass" ∧
    (fsEmpty.get_atlas "missing" 0).isSome = false :=
  ⟨rfl, rfl, rfl, rfl⟩

/-- On a 64×96 source, the mask-0 composite is the four blits of the
source cells (0,0), (1,0), (0,1), (1,1) into the quadrants of a fresh
32×32 image, in table order. -/
theorem view_rpg4x6_cell_mask0_eq (p : Nat → Nat → Nat) :
    view_rpg4x6_cell ⟨64, 96, p⟩ 0 =
      .ok (blit (blit (blit (blit (Image.new 32 32)
        (Image.view ⟨64, 96, p⟩ 0 0 16 16) 0 0)
        (Image.view ⟨64, 96, p⟩ 16 0 16 16) 16 0)
        (Image.view ⟨64, 96, p⟩ 0 16 16 16) 0 16)
        (Image.view ⟨64, 96, p⟩ 16 16 16 16) 16 16) := by
  simp only [view_rpg4x6_cell]
  norm_num
  rfl

/-- C2: on a VendorA source of size 64×96 (4×6 cells of 16×16),
`view_rpg4x6_cell` at mask `0b0000` succeeds with a 32×32 image built by
copying the source cells (0,0), (1,0), (0,1), (1,1) into the quadrants
LU, RU, LD, RD placed at `quadrantOrigin i 16 16 = ((i % 2)·16, (i / 2)·16)`;
in particular the top-left 16×16 block equals the source's (0,0) cell
pixel for pixel. -/
theorem view_rpg4x6_mask0_spec (img : Image) (hw : img.width = 64)
    (hh : img.height = 96) :
    ∃ out, view_rpg4x6_cell img 0 = .ok out ∧
      out.width = 32 ∧ out.height = 32 ∧
      (∀ dx dy, dx < 16 → dy < 16 →
        out.pixel ((quadrantOrigin 0 16 16).1 + dx)
            ((quadrantOrigin 0 16 16).2 + dy) =
          img.pixel (0 * 16 + dx) (0 * 16 + dy)) ∧
      (∀ dx dy, dx < 16 → dy < 16 →
        out.pixel ((quadrantOrigin 1 16 16).1 + dx)
            ((quadrantOrigin 1 16 16).2 + dy) =
          img.pixel (1 * 16 + dx) (0 * 16 + dy)) ∧
      (∀ dx dy, dx < 16 → dy < 16 →
        out.pixel ((quadrantOrigin 2 16 16).1 + dx)
            ((quadrantOrigin 2 16 16).2 + dy) =
          img.pixel (0 * 16 + dx) (1 * 16 + dy)) ∧
      (∀ dx dy, dx < 16 → dy < 16 →
        out.pixel ((quadrantOrigin 3 16 16).1 + dx)
            ((quadrantOrigin 3 16 16).2 + dy) =
          img.pixel (1 * 16 + dx) (1 * 16 + dy)) := by
  obtain ⟨w, h, p⟩ := img
  obtain rfl : w = 64 := hw
  obtain rfl : h = 96 := hh
  refine ⟨_, view_rpg4x6_cell_mask0_eq p, rfl, rfl, ?_, ?_, ?_, ?_⟩ <;>
    intro dx dy hdx hdy <;>
    simp only [blit, Image.view, Image.new, quadrantOrigin] <;>
    split_ifs <;>
    first
      | omega
      | (congr 1 <;> omega)

/-- C2 witness: the concrete 64×96 source with pairwise-distinct pixels
satisfies the mask-0 extraction contract. -/
theorem view_rpg4x6_mask0_witness :
    ∃ out, view_rpg4x6_cell testImg64x96 0 = .ok out ∧
      out.width = 32 ∧ out.height = 32 ∧
      (∀ dx dy, dx < 16 → dy < 16 →
        out.pixel ((quadrantOrigin 0 16 16).1 + dx)
            ((quadrantOrigin 0 16 16).2 + dy) =
          testImg64x96.pixel (0 * 16 + dx) (0 * 16 + dy)) ∧
      (∀ dx dy, dx < 16 → dy < 16 →
        out.pixel ((quadrantOrigin 1 16 16).1 + dx)
            ((quadrantOrigin 1 16 16).2 + dy) =
          testImg64x96.pixel (1 * 16 + dx) (0 * 16 + dy)) ∧
      (∀ dx dy, dx < 16 → dy < 16 →
        out.pixel ((quadrantOrigin 2 16 16).1 + dx)
            ((quadrantOrigin 2 16 16).2 + dy) =
          testImg64x96.pixel (0 * 16 + dx) (1 * 16 + dy)) ∧
      (∀ dx dy, dx < 16 → dy < 16 →
        out.pixel ((quadrantOrigin 3 16 16).1 + dx)
            ((quadrantOrigin 3 16 16).2 + dy) =
          testImg64x96.pixel (1 * 16 + dx) (1 * 16 + dy)) :=
  view_rpg4x6_mask0_spec testImg64x96 rfl rfl

/-- C4: the round trip cannot hold because `as_standard` never produces a
strip: it allocates a `(16 cell_w, cell_h)` strip while every composite
cell produced by `view_rpg4x6_cell` is `(2 cell_w, 2 cell_h)`, so the very
first bounds-checked `copy_from` fails with `DimensionMismatch` — here on
the 64×96 VendorA source of cell size 16×16, on which the direct
extraction path `view_rpg4x6_cell` succeeds. -/
theorem as_standard_dimension_bug :
    GridCornerRMVXFile.as_standard ⟨"rmvx", 16, 16⟩ "std" testImg64x96 =
      .error ImgError.dimensionMismatch ∧
    exceptErrKind (view_rpg4x6_cell testImg64x96 0) = none := by
  exact ⟨rfl, rfl⟩

/-- C9: the registry's `get_corner` returns nothing exactly when the name
is absent or the stored variant is not a `GridCornerWang`, and when a
`GridCornerWang` is stored under the name it returns exactly
`get_by_mask` applied to the mask packed from the four corner booleans. -/
theorem fs_get_corner_spec (s : FileSystemTiles) (name : String)
    (lu ru ld rd : Bool) (idx : Nat) :
    (s.get_corner name lu ru ld rd idx = none ↔
      (s.atlas.lookup name = none ∨
        ∀ v, s.atlas.lookup name ≠ some (.gridCornerWang v))) ∧
    (∀ v, s.atlas.lookup name = some (.gridCornerWang v) →
      s.get_corner name lu ru ld rd idx =
        some (v.get_by_mask (grid_corner_mask lu ru ld rd))) := by
  cases h : s.atlas.lookup name with
  | none =>
    constructor
    · simp [FileSystemTiles.get_corner, h]
    · intro v hv
      exact absurd hv (by simp)
  | some d =>
    cases d with
    | gridCornerWang v =>
      constructor
      · constructor
        · intro hnone
          have hsome : s.get_corner name lu ru ld rd idx =
              some (v.get_by_mask (grid_corner_mask lu ru ld rd)) := by
            simp [FileSystemTiles.get_corner, h]
          rw [hsome] at hnone
          exact absurd hnone (by simp)
        · intro hor
          rcases hor with h1 | h2
          · exact absurd h1 (by simp)
          · exact absurd rfl (h2 v)
      · intro v2 hv2
        injection hv2 with e
        injection e with e2
        subst e2
        simp [FileSystemTiles.get_corner, h]
    | simpleSet k =>
      constructor
      · constructor
        · intro _
          right
          intro v2 hv2
          simp at hv2
        · intro _
          simp [FileSystemTiles.get_corner, h]
      · intro v2 hv2
        simp at hv2
    | animation k =>
      constructor
      · constructor
        · intro _
          right
          intro v2 hv2
          simp at hv2
        · intro _
          simp [FileSystemTiles.get_corner, h]
      · intro v2 hv2
        simp at hv2
    | gridEdge k =>
      constructor
      · constructor
        · intro _
          right
          intro v2 hv2
          simp at hv2
        · intro _
          simp [FileSystemTiles.get_corner, h]
      · intro v2 hv2
        simp at hv2
    | gridEdgeWang k =>
      constructor
      · constructor
        · intro _
          right
          intro v2 hv2
          simp at hv2
        · intro _
          simp [FileSystemTiles.get_corner, h]
      · intro v2 hv2
        simp at hv2

/-- C9 witness: on the registry holding the `grass` corner-wang atlas, the
present name delegates to `get_by_mask` and the absent name yields
nothing. -/
theorem fs_get_corner_spec_witness :
    fsGrass.get_corner "grass" true false false false 0 =
      some (wangGrass.get_by_mask (grid_corner_mask true false false false)) ∧
    fsGrass.get_corner "missing" true false false false 0 = none :=
  ⟨(fs_get_corner_spec fsGrass "grass" true false false false 0).2 wangGrass rfl,
   (fs_get_corner_spec fsGrass "missing" true false false false 0).1.mpr
     (Or.inl rfl)⟩

end Tilemap
